import Mathlib

/-!
# Verification of the table-reservation booking engine

This development is a shallow embedding of the booking validation and
conflict-resolution logic of the `my-free-table` repository, together with
theorems settling the specification claims about it.

Sources embedded:
* `src/app/api/bookings/route.ts` (`POST`: booking creation),
* `src/app/api/bookings/[id]/route.ts` (`PUT`: update, `DELETE`: single cancel),
* `src/app/api/bookings/[id]/status/route.ts` (`PATCH`: single status transition,
  bulk `PATCH`: bulk status update, bulk `DELETE`: bulk cancel).

Modelling conventions:
* Calendar dates are day numbers (`Int`, day granularity); the JS code compares
  `Date` objects after zeroing the time-of-day, which at day granularity is
  exactly integer comparison of day numbers.  `getDay()` becomes `d % 7`.
* "HH:MM" strings become `HM` pairs; the code parses them with
  `split(":").map(Number)` and compares the derived minute counts, and compares
  the raw strings for conflict detection — for canonical strings both agree
  with comparison of the `HM` pairs.
* JS numbers are `Int`/`Nat`; JS truthiness (`0`, `""` falsy) is modelled
  literally wherever the code relies on it.
* Database reads/writes become explicit state passing over `DBState`.
-/

namespace FreeTable

/-- Booking status: the four-valued enum `"confirmed" | "cancelled" |
"completed" | "no_show"` of the schema. -/
inductive BStatus where
  | confirmed
  | cancelled
  | completed
  | noShow
deriving DecidableEq, Repr

/-- An "HH:MM" wall-clock time, as produced by `split(":").map(Number)`. -/
structure HM where
  hour : Nat
  minute : Nat
deriving DecidableEq, Repr

/-- Minutes since midnight: `hour * 60 + minute` (source: `bookingMinutes`,
`openMinutes` computations). -/
def toMinutes (t : HM) : Int := t.hour * 60 + t.minute

/-- Closing boundary in minutes: the source special-cases
`closeHour === 0 && closeMinute === 0` to `1440` (midnight as end of day). -/
def closeMinutesOf (c : HM) : Int :=
  if c.hour = 0 ∧ c.minute = 0 then 1440 else toMinutes c

/-- Day-of-week of a day number, standing for `Date.getDay()` (a fixed
surjection from days onto `0..6`). -/
def dayOfWeekOf (d : Int) : Int := d % 7

/-- One row of `opening_hours`. -/
structure OpeningHour where
  dayOfWeek : Int
  openTime : HM
  closeTime : HM
  isClosed : Bool
deriving DecidableEq, Repr

/-- One row of `tables`. -/
structure RTable where
  id : Nat
  capacity : Int
  isActive : Bool
deriving DecidableEq, Repr

/-- One row of `restaurants`, loaded `with: { openingHours, tables }`. -/
structure Restaurant where
  id : Nat
  openingHours : List OpeningHour
  tables : List RTable
deriving DecidableEq, Repr

/-- One row of `customers`. -/
structure Customer where
  id : Nat
  name : String
  email : String
  phone : String
deriving DecidableEq, Repr

/-- One row of `bookings`. -/
structure Booking where
  id : Nat
  restaurantId : Nat
  tableId : Nat
  customerId : Nat
  bookingDate : Int
  bookingTime : HM
  partySize : Int
  status : BStatus
  specialRequests : Option String
deriving DecidableEq, Repr

/-- The database state visible to the handlers, with the autoincrement
counters made explicit. -/
structure DBState where
  restaurants : List Restaurant
  customers : List Customer
  bookings : List Booking
  nextCustomerId : Nat
  nextBookingId : Nat
deriving DecidableEq, Repr

/-- One character of the local-part/domain classes `[^\s@]` of the email
regular expression `^[^\s@]+@[^\s@]+\.[^\s@]+$`. -/
def emailCharOk (c : Char) : Bool :=
  !(c == ' ' || c == '\t' || c == '\n' || c == '\r' || c == '@')

/-- Split a character list at every occurrence of a separator. -/
def splitAtChar (sep : Char) : List Char → List (List Char)
  | [] => [[]]
  | c :: cs =>
    let rest := splitAtChar sep cs
    if c = sep then [] :: rest
    else (c :: rest.headD []) :: rest.tail

/-- Full-string match of `^[^\s@]+@[^\s@]+\.[^\s@]+$`: exactly one `@`
splitting two nonempty `[^\s@]+` runs, the second containing a `.` that is
neither its first nor its last character. -/
def emailFormatOk (s : String) : Bool :=
  match splitAtChar '@' s.data with
  | [localPart, domain] =>
      !localPart.isEmpty && localPart.all emailCharOk &&
      !domain.isEmpty && domain.all emailCharOk &&
      ((domain.drop 1).dropLast.contains '.')
  | _ => false

/-- The time-window rejection condition of the source:
`bookingMinutes < openMinutes || bookingMinutes > closeMinutes - 60`. -/
def timeWindowViolated (h : OpeningHour) (t : HM) : Prop :=
  toMinutes t < toMinutes h.openTime ∨ toMinutes t > closeMinutesOf h.closeTime - 60

instance (h : OpeningHour) (t : HM) : Decidable (timeWindowViolated h t) := by
  unfold timeWindowViolated; infer_instance

/-- Request body of `POST /api/bookings`. -/
structure CreateReq where
  restaurantId : Nat
  tableId : Nat
  customerName : String
  customerEmail : String
  customerPhone : String
  bookingDate : Int
  bookingTime : HM
  partySize : Int
  specialRequests : Option String
deriving DecidableEq, Repr

/-- Outcome of `POST /api/bookings`, one constructor per early return. -/
inductive CreateResult where
  | missingFields
  | invalidEmail
  | partySizeInvalid
  | pastDate
  | beyondHorizon
  | restaurantNotFound
  | closedThisDay
  | outsideHours
  | tableNotFound
  | tableInactive
  | overCapacity
  | customerDayConflict
  | slotConflict
  | created (b : Booking)
deriving DecidableEq, Repr

/-- HTTP status code attached to each `CreateResult` by the source. -/
def createCode : CreateResult → Nat
  | .missingFields => 400
  | .invalidEmail => 400
  | .partySizeInvalid => 400
  | .pastDate => 400
  | .beyondHorizon => 400
  | .restaurantNotFound => 404
  | .closedThisDay => 400
  | .outsideHours => 400
  | .tableNotFound => 404
  | .tableInactive => 400
  | .overCapacity => 400
  | .customerDayConflict => 409
  | .slotConflict => 409
  | .created _ => 201

/-- Customer id the creation flow will use: the existing customer found by
email, else the id the insert will assign (source: find-or-create block). -/
def resolveCustomerId (st : DBState) (req : CreateReq) : Nat :=
  match st.customers.find? (fun c => c.email == req.customerEmail) with
  | some c => c.id
  | none => st.nextCustomerId

/-- The customer find-or-create side effect of the creation flow. -/
def upsertCustomer (st : DBState) (req : CreateReq) : DBState :=
  match st.customers.find? (fun c => c.email == req.customerEmail) with
  | some _ => st
  | none =>
      { st with
        customers := st.customers ++
          [{ id := st.nextCustomerId, name := req.customerName,
             email := req.customerEmail, phone := req.customerPhone }],
        nextCustomerId := st.nextCustomerId + 1 }

/-- Source query `findFirst` for a confirmed booking on the same
(table, date, time) slot. -/
def slotTaken (l : List Booking) (tableId : Nat) (d : Int) (t : HM) :
    Option Booking :=
  l.find? (fun b =>
    b.tableId == tableId && b.bookingDate == d && b.bookingTime == t &&
      b.status == BStatus.confirmed)

/-- Source query `findFirst` for a confirmed booking by the same customer at
the same restaurant on the same date. -/
def customerDayTaken (l : List Booking) (customerId restaurantId : Nat)
    (d : Int) : Option Booking :=
  l.find? (fun b =>
    b.customerId == customerId && b.restaurantId == restaurantId &&
      b.bookingDate == d && b.status == BStatus.confirmed)

/-- The early input checks of `POST /api/bookings`, in source order:
required fields (JS truthiness, `0`/`""` falsy), email format, party-size
range, past date, 90-day horizon.  `none` means all passed. -/
def createBasicsErr (today : Int) (req : CreateReq) : Option CreateResult :=
  if req.restaurantId = 0 ∨ req.tableId = 0 ∨ req.customerName = "" ∨
      req.customerEmail = "" ∨ req.customerPhone = "" ∨ req.partySize = 0 then
    some .missingFields
  else if ¬ emailFormatOk req.customerEmail then
    some .invalidEmail
  else if req.partySize < 1 ∨ req.partySize > 20 then
    some .partySizeInvalid
  else if req.bookingDate < today then
    some .pastDate
  else if req.bookingDate > today + 90 then
    some .beyondHorizon
  else none

/-- Opening-hours row for the day of week of a date (source:
`restaurant.openingHours.find(h => h.dayOfWeek === dayOfWeek)`). -/
def dayHoursFor (restaurant : Restaurant) (d : Int) : Option OpeningHour :=
  restaurant.openingHours.find? (fun h => h.dayOfWeek == dayOfWeekOf d)

/-- The booking row the creation flow inserts on success. -/
def newBookingOf (st : DBState) (req : CreateReq) : Booking :=
  { id := (upsertCustomer st req).nextBookingId,
    restaurantId := req.restaurantId,
    tableId := req.tableId,
    customerId := resolveCustomerId st req,
    bookingDate := req.bookingDate,
    bookingTime := req.bookingTime,
    partySize := req.partySize,
    status := .confirmed,
    specialRequests :=
      match req.specialRequests with
      | some s => if s = "" then none else some s
      | none => none }

/-- Tail of `POST /api/bookings` once all availability checks passed:
customer find-or-create, customer-day conflict, slot conflict, insert. -/
def createWithConflicts (st : DBState) (req : CreateReq) :
    CreateResult × DBState :=
  match customerDayTaken (upsertCustomer st req).bookings
      (resolveCustomerId st req) req.restaurantId req.bookingDate with
  | some _ => (.customerDayConflict, upsertCustomer st req)
  | none =>
    match slotTaken (upsertCustomer st req).bookings req.tableId
        req.bookingDate req.bookingTime with
    | some _ => (.slotConflict, upsertCustomer st req)
    | none =>
      (.created (newBookingOf st req),
       { upsertCustomer st req with
         bookings := (upsertCustomer st req).bookings ++ [newBookingOf st req],
         nextBookingId := (upsertCustomer st req).nextBookingId + 1 })

/-- `POST /api/bookings` (`src/app/api/bookings/route.ts`): the full
early-return chain, in source order. -/
def createBooking (today : Int) (st : DBState) (req : CreateReq) :
    CreateResult × DBState :=
  match createBasicsErr today req with
  | some e => (e, st)
  | none =>
    match st.restaurants.find? (fun r => r.id == req.restaurantId) with
    | none => (.restaurantNotFound, st)
    | some restaurant =>
      match dayHoursFor restaurant req.bookingDate with
      | none => (.closedThisDay, st)
      | some hoursForDay =>
        if hoursForDay.isClosed then (.closedThisDay, st)
        else if timeWindowViolated hoursForDay req.bookingTime then
          (.outsideHours, st)
        else
          match restaurant.tables.find? (fun t => t.id == req.tableId) with
          | none => (.tableNotFound, st)
          | some table =>
            if ¬ table.isActive then (.tableInactive, st)
            else if req.partySize > table.capacity then
              (.overCapacity, st)
            else createWithConflicts st req

/-- Request body of `PUT /api/bookings/[id]`; every field optional. -/
structure UpdateReq where
  customerName : Option String
  customerEmail : Option String
  customerPhone : Option String
  bookingDate : Option Int
  bookingTime : Option HM
  partySize : Option Int
  specialRequests : Option String
  tableId : Option Nat
deriving DecidableEq, Repr

/-- The all-absent update request. -/
def UpdateReq.empty : UpdateReq :=
  { customerName := none, customerEmail := none, customerPhone := none,
    bookingDate := none, bookingTime := none, partySize := none,
    specialRequests := none, tableId := none }

/-- JS truthiness of an optional string field (`undefined` and `""` falsy). -/
def strProvided : Option String → Bool
  | some s => !(s == "")
  | none => false

/-- Outcome of `PUT /api/bookings/[id]`, one constructor per early return;
`serverError` is the catch-all 500 arising when the booking's restaurant
relation is absent and then dereferenced. -/
inductive UpdateResult where
  | notFound
  | cannotModifyCancelled
  | nameTooShort
  | invalidEmail
  | phoneTooShort
  | pastDate
  | beyondHorizon
  | closedThisDay
  | outsideHours
  | partySizeInvalid
  | tableNotFound
  | tableInactive
  | overCapacity
  | slotConflict
  | serverError
  | ok (b : Booking)
deriving DecidableEq, Repr

/-- HTTP status code attached to each `UpdateResult` by the source. -/
def updateCode : UpdateResult → Nat
  | .notFound => 404
  | .cannotModifyCancelled => 400
  | .nameTooShort => 400
  | .invalidEmail => 400
  | .phoneTooShort => 400
  | .pastDate => 400
  | .beyondHorizon => 400
  | .closedThisDay => 400
  | .outsideHours => 400
  | .partySizeInvalid => 400
  | .tableNotFound => 404
  | .tableInactive => 400
  | .overCapacity => 400
  | .slotConflict => 409
  | .serverError => 500
  | .ok _ => 200

/-- The customer-row update of the PUT handler: each provided (truthy)
field overwrites the stored one. -/
def applyCustomerData (req : UpdateReq) (c : Customer) : Customer :=
  { c with
    name := match req.customerName with
      | some s => if s = "" then c.name else s
      | none => c.name,
    email := match req.customerEmail with
      | some s => if s = "" then c.email else s
      | none => c.email,
    phone := match req.customerPhone with
      | some s => if s = "" then c.phone else s
      | none => c.phone }

/-- Validation of the date/time block of the PUT handler (runs only when a
date or a time was supplied): past, horizon, open-day and time-window checks
against the effective new date/time; `none` means the block passed. -/
def updateDTErr (today : Int) (restaurantOpt : Option Restaurant)
    (newDate : Int) (newTime : HM) : Option UpdateResult :=
  if newDate < today then some .pastDate
  else if newDate > today + 90 then some .beyondHorizon
  else
    match restaurantOpt with
    | none => some .serverError
    | some restaurant =>
      match restaurant.openingHours.find?
          (fun h => h.dayOfWeek == dayOfWeekOf newDate) with
      | none => some .closedThisDay
      | some hoursForDay =>
        if hoursForDay.isClosed then some .closedThisDay
        else if timeWindowViolated hoursForDay newTime then some .outsideHours
        else none

/-- Effective party size of the PUT table block under JS truthiness
(source: `partySize || existingBooking.partySize`, `0` falsy). -/
def finalPartySizeOf (eb : Booking) (p : Option Int) : Int :=
  match p with
  | some q => if q = 0 then eb.partySize else q
  | none => eb.partySize

/-- Validation of the table block of the PUT handler against a loaded
restaurant: lookup, active flag, capacity against the effective party
size. -/
def updateTableErrCore (r : Restaurant) (eb : Booking)
    (reqPartySize : Option Int) (tid : Nat) : Option UpdateResult :=
  match r.tables.find? (fun t => t.id == tid) with
  | none => some .tableNotFound
  | some table =>
    if ¬ table.isActive then some .tableInactive
    else if finalPartySizeOf eb reqPartySize > table.capacity then
      some .overCapacity
    else none

/-- Validation of the table block of the PUT handler (runs only when a
`tableId` was supplied); dereferencing an absent restaurant relation is
the 500 path. -/
def updateTableErr (restaurantOpt : Option Restaurant) (eb : Booking)
    (reqPartySize : Option Int) (tid : Nat) : Option UpdateResult :=
  match restaurantOpt with
  | none => some .serverError
  | some restaurant => updateTableErrCore restaurant eb reqPartySize tid

/-- JS truthiness of the optional `tableId` (`undefined` and `0` falsy). -/
def tableTruthy : Option Nat → Bool
  | some t => t != 0
  | none => false

/-- Effective date the PUT conflict check uses (source: `checkDate`,
equal to `newDate` since `updateData.bookingDate` is `newDate` when set). -/
def checkDateOf (eb : Booking) (req : UpdateReq) : Int :=
  req.bookingDate.getD eb.bookingDate

/-- Effective time the PUT conflict check uses (source: `checkTime`). -/
def checkTimeOf (eb : Booking) (req : UpdateReq) : HM :=
  req.bookingTime.getD eb.bookingTime

/-- Effective table the PUT conflict check uses (source: `checkTableId`,
with JS truthiness on `updateData.tableId`). -/
def checkTableIdOf (eb : Booking) (req : UpdateReq) : Nat :=
  if tableTruthy req.tableId then req.tableId.getD eb.tableId
  else eb.tableId

/-- Party-size range check of PUT (`partySize !== undefined` branch). -/
def updatePSErr : Option Int → Option UpdateResult
  | some p => if p < 1 ∨ p > 20 then some .partySizeInvalid else none
  | none => none

/-- Customer-row side effect of PUT: when any customer field is (truthy)
provided, the booking's customer row is overwritten. -/
def custUpdated (st : DBState) (eb : Booking) (req : UpdateReq) : DBState :=
  { st with customers :=
      if strProvided req.customerName ∨ strProvided req.customerEmail ∨
          strProvided req.customerPhone then
        st.customers.map (fun c =>
          if c.id == eb.customerId then applyCustomerData req c else c)
      else st.customers }

/-- Conflict check of PUT: runs only when the update touched date, time or
a truthy table id; takes the first confirmed booking on the effective slot
and flags it unless it is the booking being updated itself. -/
def updateConflictHit (st : DBState) (bid : Nat) (eb : Booking)
    (req : UpdateReq) : Bool :=
  if (req.bookingDate.isSome ∨ req.bookingTime.isSome) ∨
      tableTruthy req.tableId then
    match st.bookings.find? (fun b =>
        b.tableId == checkTableIdOf eb req &&
        b.bookingDate == checkDateOf eb req &&
        b.bookingTime == checkTimeOf eb req &&
        b.status == BStatus.confirmed) with
    | some c => c.id != bid
    | none => false
  else false

/-- The updated row PUT writes: exactly the validated `updateData` fields
over the existing row. -/
def updatedBookingOf (eb : Booking) (req : UpdateReq) : Booking :=
  { eb with
    bookingDate := if req.bookingDate.isSome ∨ req.bookingTime.isSome
      then checkDateOf eb req else eb.bookingDate,
    bookingTime := if req.bookingDate.isSome ∨ req.bookingTime.isSome
      then checkTimeOf eb req else eb.bookingTime,
    partySize := match req.partySize with
      | some p => p
      | none => eb.partySize,
    tableId := match req.tableId with
      | some t => t
      | none => eb.tableId,
    specialRequests := match req.specialRequests with
      | some s => if s = "" then none else some s
      | none => eb.specialRequests }

/-- `PUT /api/bookings/[id]` (`src/app/api/bookings/[id]/route.ts`): load,
cancelled guard, customer-field validation and customer-row update,
date/time block, party-size block, table block, conflict check over the
effective slot excluding only a first hit that is the booking itself, then
the single row update. -/
def updateBooking (today : Int) (st : DBState) (bookingId : Nat)
    (req : UpdateReq) : UpdateResult × DBState :=
  match st.bookings.find? (fun b => b.id == bookingId) with
  | none => (.notFound, st)
  | some eb =>
    if eb.status = .cancelled then (.cannotModifyCancelled, st)
    else if strProvided req.customerName ∧
        (req.customerName.getD "").length < 2 then
      (.nameTooShort, st)
    else if strProvided req.customerEmail ∧
        ¬ emailFormatOk (req.customerEmail.getD "") then
      (.invalidEmail, st)
    else if strProvided req.customerPhone ∧
        (req.customerPhone.getD "").length < 10 then
      (.phoneTooShort, st)
    else
      match (if req.bookingDate.isSome ∨ req.bookingTime.isSome then
          updateDTErr today
            (st.restaurants.find? (fun r => r.id == eb.restaurantId))
            (checkDateOf eb req) (checkTimeOf eb req)
        else none) with
      | some e => (e, custUpdated st eb req)
      | none =>
        match updatePSErr req.partySize with
        | some e => (e, custUpdated st eb req)
        | none =>
          match (match req.tableId with
            | some tid => updateTableErr
                (st.restaurants.find? (fun r => r.id == eb.restaurantId))
                eb req.partySize tid
            | none => none) with
          | some e => (e, custUpdated st eb req)
          | none =>
            if updateConflictHit st bookingId eb req then
              (.slotConflict, custUpdated st eb req)
            else
              (.ok (updatedBookingOf eb req),
               { custUpdated st eb req with
                 bookings := st.bookings.map (fun b =>
                   if b.id == bookingId then updatedBookingOf eb req
                   else b) })

/-- Outcome of `PATCH /api/bookings/[id]/status`. -/
inductive StatusResult where
  | notFound
  | cancelledTerminal
  | completedTerminal
  | pastCancel
  | ok (b : Booking)
deriving DecidableEq, Repr

/-- `PATCH /api/bookings/[id]/status`
(`src/app/api/bookings/[id]/status/route.ts`): terminal-state guards for
`cancelled` and `completed`, past-date guard when the target is
`cancelled`, then the status write. -/
def patchStatus (today : Int) (l : List Booking) (bookingId : Nat)
    (status : BStatus) : StatusResult × List Booking :=
  match l.find? (fun b => b.id == bookingId) with
  | none => (.notFound, l)
  | some eb =>
    if eb.status = .cancelled ∧ status ≠ .cancelled then
      (.cancelledTerminal, l)
    else if eb.status = .completed ∧ status ≠ .completed then
      (.completedTerminal, l)
    else if status = .cancelled ∧ eb.bookingDate < today then
      (.pastCancel, l)
    else
      (.ok { eb with status := status },
       l.map (fun b => if b.id == bookingId then { b with status := status }
         else b))

/-- Outcome of `DELETE /api/bookings/[id]` (single cancel). -/
inductive CancelResult where
  | notFound
  | alreadyCancelled
  | pastBooking
  | ok (b : Booking)
deriving DecidableEq, Repr

/-- `DELETE /api/bookings/[id]` (`src/app/api/bookings/[id]/route.ts`):
already-cancelled guard, past-date guard, then the status write to
`cancelled`.  The handler never inspects the `completed` status. -/
def cancelBooking (today : Int) (l : List Booking) (bookingId : Nat) :
    CancelResult × List Booking :=
  match l.find? (fun b => b.id == bookingId) with
  | none => (.notFound, l)
  | some eb =>
    if eb.status = .cancelled then (.alreadyCancelled, l)
    else if eb.bookingDate < today then (.pastBooking, l)
    else
      (.ok { eb with status := .cancelled },
       l.map (fun b =>
         if b.id == bookingId then { b with status := BStatus.cancelled }
         else b))

/-- Outcome of the bulk handlers; the reject constructors carry the
offending id lists the source reports. -/
inductive BulkResult where
  | emptyIds
  | tooMany
  | missing (ids : List Nat)
  | illegalChange (ids : List Nat)
  | alreadyCancelledIds (ids : List Nat)
  | pastIds (ids : List Nat)
  | ok (updated : List Booking)
deriving DecidableEq, Repr

/-- The bookings the bulk handlers load: every row whose id is in the
request (source: `findMany where inArray`). -/
def bulkTargets (l : List Booking) (ids : List Nat) : List Booking :=
  l.filter (fun b => ids.contains b.id)

/-- Requested ids with no matching booking row (source: `missingIds`). -/
def bulkMissing (l : List Booking) (ids : List Nat) : List Nat :=
  ids.filter (fun i => ¬ ((bulkTargets l ids).map (fun b => b.id)).contains i)

/-- Terminal-state screen of the bulk status update (source:
`invalidStatusChanges` filter). -/
def illegalFor (status : BStatus) (b : Booking) : Bool :=
  (b.status == BStatus.cancelled && status != BStatus.cancelled) ||
  (b.status == BStatus.completed && status != BStatus.completed)

/-- Targeted bookings dated strictly before today (source: `pastBookings`
filter). -/
def bulkPast (today : Int) (l : List Booking) (ids : List Nat) :
    List Booking :=
  (bulkTargets l ids).filter (fun b => decide (b.bookingDate < today))

/-- The single status write of the bulk handlers (source:
`update ... where inArray`). -/
def bulkApply (l : List Booking) (ids : List Nat) (status : BStatus) :
    List Booking :=
  l.map (fun b => if ids.contains b.id then { b with status := status } else b)

/-- Bulk `PATCH` (`src/app/api/bookings/[id]/status/route.ts`, bulk file):
bound of 50, existence of every id, terminal-state screen against the
target status, past-date screen when cancelling, then one status write
over the whole id set. -/
def bulkUpdateStatus (today : Int) (l : List Booking) (bookingIds : List Nat)
    (status : BStatus) : BulkResult × List Booking :=
  if bookingIds.isEmpty then (.emptyIds, l)
  else if bookingIds.length > 50 then (.tooMany, l)
  else if (bulkTargets l bookingIds).length ≠ bookingIds.length then
    (.missing (bulkMissing l bookingIds), l)
  else if ¬ ((bulkTargets l bookingIds).filter (illegalFor status)).isEmpty then
    (.illegalChange
      (((bulkTargets l bookingIds).filter (illegalFor status)).map
        (fun b => b.id)), l)
  else if status = BStatus.cancelled ∧
      ¬ (bulkPast today l bookingIds).isEmpty then
    (.pastIds ((bulkPast today l bookingIds).map (fun b => b.id)), l)
  else
    (.ok ((bulkApply l bookingIds status).filter
        (fun b => bookingIds.contains b.id)),
     bulkApply l bookingIds status)

/-- Bulk `DELETE` (`src/app/api/bookings/[id]/status/route.ts`, bulk file):
bound of 50, existence of every id, already-cancelled screen, past-date
screen, then one status write to `cancelled` over the whole id set.  The
handler never inspects the `completed` status. -/
def bulkCancel (today : Int) (l : List Booking) (bookingIds : List Nat) :
    BulkResult × List Booking :=
  if bookingIds.isEmpty then (.emptyIds, l)
  else if bookingIds.length > 50 then (.tooMany, l)
  else if (bulkTargets l bookingIds).length ≠ bookingIds.length then
    (.missing (bulkMissing l bookingIds), l)
  else if ¬ ((bulkTargets l bookingIds).filter
      (fun b => b.status == BStatus.cancelled)).isEmpty then
    (.alreadyCancelledIds
      (((bulkTargets l bookingIds).filter
        (fun b => b.status == BStatus.cancelled)).map (fun b => b.id)), l)
  else if ¬ (bulkPast today l bookingIds).isEmpty then
    (.pastIds ((bulkPast today l bookingIds).map (fun b => b.id)), l)
  else
    (.ok ((bulkApply l bookingIds BStatus.cancelled).filter
        (fun b => bookingIds.contains b.id)),
     bulkApply l bookingIds BStatus.cancelled)

/-! ## Concrete fixtures for witnesses and counterexamples -/

/-- An opening-hours row open 10:00 with close time "00:00" (midnight as
end of day). -/
def mkHour (d : Int) : OpeningHour :=
  { dayOfWeek := d, openTime := ⟨10, 0⟩, closeTime := ⟨0, 0⟩, isClosed := false }

/-- Opening hours for the whole week. -/
def exHours : List OpeningHour :=
  [mkHour 0, mkHour 1, mkHour 2, mkHour 3, mkHour 4, mkHour 5, mkHour 6]

/-- A four-seat active table. -/
def exTable : RTable := { id := 1, capacity := 4, isActive := true }

/-- A restaurant open every day with one table. -/
def exRestaurant : Restaurant :=
  { id := 1, openingHours := exHours, tables := [exTable] }

/-- A database holding only `exRestaurant`. -/
def exState : DBState :=
  { restaurants := [exRestaurant], customers := [], bookings := [],
    nextCustomerId := 1, nextBookingId := 1 }

/-- A well-formed creation request against `exRestaurant`. -/
def exReq (d : Int) (t : HM) (p : Int) : CreateReq :=
  { restaurantId := 1, tableId := 1, customerName := "Ann",
    customerEmail := "ann@mail.com", customerPhone := "5551234567",
    bookingDate := d, bookingTime := t, partySize := p,
    specialRequests := none }

/-- A cancelled booking dated in the future of day 100. -/
def exCancelledBooking : Booking :=
  { id := 1, restaurantId := 1, tableId := 1, customerId := 1,
    bookingDate := 200, bookingTime := ⟨19, 0⟩, partySize := 2,
    status := .cancelled, specialRequests := none }

/-- A completed booking dated in the future of day 100. -/
def exCompletedBooking : Booking :=
  { exCancelledBooking with status := .completed }

/-- A no-show booking dated in the future of day 100. -/
def exNoShowBooking : Booking :=
  { exCancelledBooking with status := .noShow }

/-- A no-show booking dated in the past of day 100. -/
def exNoShowPast : Booking :=
  { exCancelledBooking with status := .noShow, bookingDate := 50 }

/-- A confirmed booking on `exTable` dated in the future of day 100. -/
def exConfirmedBooking : Booking :=
  { exCancelledBooking with status := .confirmed }

/-- The customer behind the fixture bookings. -/
def exCustomer : Customer :=
  { id := 1, name := "Ann", email := "ann@mail.com", phone := "5551234567" }

/-- A database holding `exRestaurant` and one confirmed booking. -/
def exStateU : DBState :=
  { restaurants := [exRestaurant], customers := [exCustomer],
    bookings := [exConfirmedBooking], nextCustomerId := 2,
    nextBookingId := 2 }

/-- A second confirmed booking occupying the same slot as
`exConfirmedBooking`. -/
def exOtherBooking : Booking :=
  { exConfirmedBooking with id := 2, customerId := 2 }

/-- A database in which two confirmed bookings share one slot (reachable
through the unguarded confirmed-transition of the status route). -/
def exStateC7 : DBState :=
  { exStateU with bookings := [exConfirmedBooking, exOtherBooking] }

/-- Slot-uniqueness: at most one confirmed booking occupies any
(table, date, time) slot. -/
def slotUnique (l : List Booking) : Prop :=
  ∀ b1, b1 ∈ l → ∀ b2, b2 ∈ l → b1.status = .confirmed →
    b2.status = .confirmed → b1.tableId = b2.tableId →
    b1.bookingDate = b2.bookingDate → b1.bookingTime = b2.bookingTime →
    b1 = b2

/-! ## Helper lemmas -/

/-- The PUT conflict flag fires exactly when the first confirmed booking on
the effective slot is not the booking being updated. -/
theorem updateConflictHit_true_iff (st : DBState) (bid : Nat) (eb : Booking)
    (req : UpdateReq)
    (hguard : (req.bookingDate.isSome ∨ req.bookingTime.isSome) ∨
      tableTruthy req.tableId) :
    updateConflictHit st bid eb req = true ↔
      ∃ c, st.bookings.find? (fun b =>
          b.tableId == checkTableIdOf eb req &&
          b.bookingDate == checkDateOf eb req &&
          b.bookingTime == checkTimeOf eb req &&
          b.status == BStatus.confirmed) = some c ∧ c.id ≠ bid := by
  unfold updateConflictHit
  rw [if_pos hguard]
  cases hf : st.bookings.find? (fun b =>
      b.tableId == checkTableIdOf eb req &&
      b.bookingDate == checkDateOf eb req &&
      b.bookingTime == checkTimeOf eb req &&
      b.status == BStatus.confirmed) with
  | none => simp
  | some c => simp [bne_iff_ne]

/-- A targeted booking flagged by the terminal screen forces the bulk
status update to reject and leave the stored list unchanged. -/
theorem bulkUpdateStatus_blocked (today : Int) (l : List Booking)
    (ids : List Nat) (s : BStatus) (b : Booking) (hmem : b ∈ l)
    (hid : ids.contains b.id = true) (hbad : illegalFor s b = true) :
    (∀ u, (bulkUpdateStatus today l ids s).1 ≠ .ok u) ∧
      (bulkUpdateStatus today l ids s).2 = l := by
  have hbt : b ∈ (bulkTargets l ids).filter (illegalFor s) := by
    simp only [bulkTargets, List.mem_filter]
    exact ⟨⟨hmem, hid⟩, hbad⟩
  have hne : ¬ ((bulkTargets l ids).filter (illegalFor s)).isEmpty = true := by
    intro hE
    rw [List.isEmpty_iff] at hE
    rw [hE] at hbt
    exact absurd hbt (List.not_mem_nil b)
  unfold bulkUpdateStatus
  split_ifs <;> simp_all

/-- A targeted booking that is already cancelled forces the bulk cancel to
reject and leave the stored list unchanged. -/
theorem bulkCancel_blocked (today : Int) (l : List Booking)
    (ids : List Nat) (b : Booking) (hmem : b ∈ l)
    (hid : ids.contains b.id = true) (hb : b.status = .cancelled) :
    (∀ u, (bulkCancel today l ids).1 ≠ .ok u) ∧
      (bulkCancel today l ids).2 = l := by
  have hbt : b ∈ (bulkTargets l ids).filter
      (fun x => x.status == BStatus.cancelled) := by
    simp only [bulkTargets, List.mem_filter]
    refine ⟨⟨hmem, hid⟩, by simp [hb]⟩
  have hne : ¬ ((bulkTargets l ids).filter
      (fun x => x.status == BStatus.cancelled)).isEmpty = true := by
    intro hE
    rw [List.isEmpty_iff] at hE
    rw [hE] at hbt
    exact absurd hbt (List.not_mem_nil b)
  unfold bulkCancel
  split_ifs <;> simp_all

/-- The conflict/insert tail only ever produces a conflict or a created
booking. -/
theorem createWithConflicts_shape (st : DBState) (req : CreateReq) :
    (createWithConflicts st req).1 = .customerDayConflict ∨
    (createWithConflicts st req).1 = .slotConflict ∨
    (createWithConflicts st req).1 = .created (newBookingOf st req) := by
  unfold createWithConflicts
  repeat' (first | (split) | simp)

/-- The customer find-or-create touches only the customer table. -/
theorem upsertCustomer_bookings (st : DBState) (req : CreateReq) :
    (upsertCustomer st req).bookings = st.bookings := by
  unfold upsertCustomer
  split <;> rfl

/-- The customer-day scan hits exactly when a confirmed booking by the
customer at the restaurant on the date exists. -/
theorem customerDayTaken_isSome_iff (l : List Booking) (cid rid : Nat)
    (d : Int) :
    (customerDayTaken l cid rid d).isSome ↔
      ∃ b, b ∈ l ∧ b.status = .confirmed ∧ b.customerId = cid ∧
        b.restaurantId = rid ∧ b.bookingDate = d := by
  unfold customerDayTaken
  rw [List.find?_isSome]
  constructor
  · rintro ⟨b, hb, hp⟩
    simp only [Bool.and_eq_true, beq_iff_eq] at hp
    exact ⟨b, hb, hp.2, hp.1.1.1, hp.1.1.2, hp.1.2⟩
  · rintro ⟨b, hb, hst, hcid, hrid, hd⟩
    exact ⟨b, hb, by simp [hst, hcid, hrid, hd]⟩

/-- The slot scan hits exactly when a confirmed booking on the
(table, date, time) slot exists. -/
theorem slotTaken_isSome_iff (l : List Booking) (tid : Nat) (d : Int)
    (t : HM) :
    (slotTaken l tid d t).isSome ↔
      ∃ b, b ∈ l ∧ b.status = .confirmed ∧ b.tableId = tid ∧
        b.bookingDate = d ∧ b.bookingTime = t := by
  unfold slotTaken
  rw [List.find?_isSome]
  constructor
  · rintro ⟨b, hb, hp⟩
    simp only [Bool.and_eq_true, beq_iff_eq] at hp
    exact ⟨b, hb, hp.2, hp.1.1.1, hp.1.1.2, hp.1.2⟩
  · rintro ⟨b, hb, hst, htid, hd, ht⟩
    exact ⟨b, hb, by simp [hst, htid, hd, ht]⟩

/-- The early checks of creation never produce a `created` outcome. -/
theorem createBasicsErr_not_created (today : Int) (req : CreateReq)
    (b : Booking) : createBasicsErr today req ≠ some (.created b) := by
  unfold createBasicsErr
  split_ifs <;> simp

/-- A `created` outcome of the conflict/insert tail is exactly the row
`newBookingOf`. -/
theorem createWithConflicts_created (st : DBState) (req : CreateReq)
    (b : Booking) (h : (createWithConflicts st req).1 = .created b) :
    b = newBookingOf st req := by
  unfold createWithConflicts at h
  repeat' (first | (split at h) | simp_all)

/-- The date/time block of PUT never produces an `ok` outcome. -/
theorem updateDTErr_not_ok (today : Int) (ro : Option Restaurant) (d : Int)
    (t : HM) (nb : Booking) : updateDTErr today ro d t ≠ some (.ok nb) := by
  unfold updateDTErr
  repeat' (first | (split) | simp)

/-- The party-size block of PUT never produces an `ok` outcome. -/
theorem updatePSErr_not_ok (p : Option Int) (nb : Booking) :
    updatePSErr p ≠ some (.ok nb) := by
  unfold updatePSErr
  repeat' (first | (split) | simp)

/-- The table block of PUT never produces an `ok` outcome. -/
theorem updateTableErr_not_ok (ro : Option Restaurant) (eb : Booking)
    (p : Option Int) (tid : Nat) (nb : Booking) :
    updateTableErr ro eb p tid ≠ some (.ok nb) := by
  unfold updateTableErr updateTableErrCore
  repeat' (first | (split) | simp)

/-- Inversion of a passing table block: the restaurant relation is present,
the table was found, it is active, and the effective party size fits its
capacity. -/
theorem updateTableErr_none_inv (ro : Option Restaurant) (eb : Booking)
    (p : Option Int) (tid : Nat) (h : updateTableErr ro eb p tid = none) :
    ∃ r, ro = some r ∧
      ∃ tb, r.tables.find? (fun t => t.id == tid) = some tb ∧
        tb.isActive = true ∧ finalPartySizeOf eb p ≤ tb.capacity := by
  rcases ro with _ | r
  · simp [updateTableErr] at h
  · have h2 : updateTableErrCore r eb p tid = none := h
    refine ⟨r, rfl, ?_⟩
    unfold updateTableErrCore at h2
    split at h2
    next => cases h2
    next tb heqt =>
      split_ifs at h2 with ha hc
      exact ⟨tb, heqt, ha, by omega⟩

/-- Inversion of a successful PUT: the booking was found and not cancelled,
the party-size and table blocks passed, the conflict check did not fire,
and the result row is `updatedBookingOf`. -/
theorem updateBooking_ok_inv (today : Int) (st : DBState) (bid : Nat)
    (req : UpdateReq) (nb : Booking)
    (h : (updateBooking today st bid req).1 = .ok nb) :
    ∃ eb, st.bookings.find? (fun x => x.id == bid) = some eb ∧
      eb.status ≠ .cancelled ∧
      updatePSErr req.partySize = none ∧
      (match req.tableId with
        | some tid => updateTableErr
            (st.restaurants.find? (fun r => r.id == eb.restaurantId))
            eb req.partySize tid
        | none => none) = none ∧
      updateConflictHit st bid eb req = false ∧
      nb = updatedBookingOf eb req := by
  unfold updateBooking at h
  split at h
  next => simp at h
  next eb heqb =>
    by_cases h1 : eb.status = .cancelled
    · rw [if_pos h1] at h; exact absurd h (by simp)
    rw [if_neg h1] at h
    by_cases h2 : strProvided req.customerName ∧
        (req.customerName.getD "").length < 2
    · rw [if_pos h2] at h; exact absurd h (by simp)
    rw [if_neg h2] at h
    by_cases h3 : strProvided req.customerEmail ∧
        ¬ emailFormatOk (req.customerEmail.getD "")
    · rw [if_pos h3] at h; exact absurd h (by simp)
    rw [if_neg h3] at h
    by_cases h4 : strProvided req.customerPhone ∧
        (req.customerPhone.getD "").length < 10
    · rw [if_pos h4] at h; exact absurd h (by simp)
    rw [if_neg h4] at h
    rcases hdt : (if req.bookingDate.isSome ∨ req.bookingTime.isSome then
        updateDTErr today
          (st.restaurants.find? (fun r => r.id == eb.restaurantId))
          (checkDateOf eb req) (checkTimeOf eb req)
      else none) with _ | e
    · rw [hdt] at h
      rcases hps : updatePSErr req.partySize with _ | e
      · rw [hps] at h
        rcases htb : (match req.tableId with
          | some tid => updateTableErr
              (st.restaurants.find? (fun r => r.id == eb.restaurantId))
              eb req.partySize tid
          | none => none) with _ | e
        · rw [htb] at h
          cases hcf : updateConflictHit st bid eb req
          · rw [hcf] at h
            have h' : UpdateResult.ok (updatedBookingOf eb req) =
                UpdateResult.ok nb := h
            injection h' with h2
            exact ⟨eb, heqb, h1, rfl, htb, hcf, h2.symm⟩
          · rw [hcf] at h
            exact absurd
              (show UpdateResult.slotConflict = UpdateResult.ok nb from h)
              (by simp)
        · rw [htb] at h
          have h' : e = UpdateResult.ok nb := h
          subst h'
          exfalso
          cases htid : req.tableId with
          | none => rw [htid] at htb; cases htb
          | some tid =>
            rw [htid] at htb
            exact updateTableErr_not_ok _ _ _ _ _ htb
      · rw [hps] at h
        have h' : e = UpdateResult.ok nb := h
        subst h'
        exact absurd hps (updatePSErr_not_ok _ _)
    · rw [hdt] at h
      have h' : e = UpdateResult.ok nb := h
      subst h'
      exfalso
      by_cases hdtp : req.bookingDate.isSome ∨ req.bookingTime.isSome
      · rw [if_pos hdtp] at hdt
        exact updateDTErr_not_ok _ _ _ _ _ hdt
      · rw [if_neg hdtp] at hdt
        cases hdt

/-- A `pastDate` outcome of the early checks means the requested date is
strictly before today. -/
theorem createBasicsErr_pastDate (today : Int) (req : CreateReq)
    (h : createBasicsErr today req = some .pastDate) :
    req.bookingDate < today := by
  unfold createBasicsErr at h
  split_ifs at h <;> simp_all

/-- A `beyondHorizon` outcome of the early checks means the requested date
is more than 90 days after today. -/
theorem createBasicsErr_beyondHorizon (today : Int) (req : CreateReq)
    (h : createBasicsErr today req = some .beyondHorizon) :
    req.bookingDate > today + 90 := by
  unfold createBasicsErr at h
  split_ifs at h <;> simp_all

/-- Whatever else holds, a `pastDate` outcome of creation means the
requested date is strictly before today. -/
theorem createBooking_pastDate_lt (today : Int) (st : DBState)
    (req : CreateReq) (h : (createBooking today st req).1 = .pastDate) :
    req.bookingDate < today := by
  unfold createBooking at h
  split at h
  next e heq =>
    have h' : e = CreateResult.pastDate := h
    subst h'
    exact createBasicsErr_pastDate today req heq
  next heq =>
    exfalso
    rcases createWithConflicts_shape st req with hs | hs | hs <;>
      repeat' (first | (split at h) | simp_all)

/-- Whatever else holds, a `beyondHorizon` outcome of creation means the
requested date is strictly more than 90 days after today. -/
theorem createBooking_beyondHorizon_gt (today : Int) (st : DBState)
    (req : CreateReq) (h : (createBooking today st req).1 = .beyondHorizon) :
    req.bookingDate > today + 90 := by
  unfold createBooking at h
  split at h
  next e heq =>
    have h' : e = CreateResult.beyondHorizon := h
    subst h'
    exact createBasicsErr_beyondHorizon today req heq
  next heq =>
    exfalso
    rcases createWithConflicts_shape st req with hs | hs | hs <;>
      repeat' (first | (split at h) | simp_all)

/-! ## Claims -/

/-- C2: a requested booking time `t` passes the time-window check iff
`openMinutes ≤ t ≤ closingBoundary − 60`, where the closing boundary is 1440
when `closeTime` is "00:00" and `toMinutes closeTime` otherwise; with close
time "00:00" a 23:00 booking is accepted (201) and a 23:30 booking is
rejected as outside hours. -/
theorem C2_time_window :
    (∀ (h : OpeningHour) (t : HM),
        (¬ timeWindowViolated h t) ↔
          (toMinutes h.openTime ≤ toMinutes t ∧
            toMinutes t ≤ (if h.closeTime.hour = 0 ∧ h.closeTime.minute = 0
              then (1440 : Int) else toMinutes h.closeTime) - 60)) ∧
    createCode (createBooking 100 exState (exReq 100 ⟨23, 0⟩ 2)).1 = 201 ∧
    (createBooking 100 exState (exReq 100 ⟨23, 30⟩ 2)).1 = .outsideHours := by
  refine ⟨fun h t => ?_, by decide, by decide⟩
  simp only [timeWindowViolated, closeMinutesOf, not_or, not_lt]

/-- C6: with reference day `today`, creation accepts `today` and rejects
`today − 1` at the past-date check, and accepts `today + 90` while
rejecting `today + 91` at the horizon check. -/
theorem C6_reference_day_boundaries (today : Int) (st : DBState)
    (req : CreateReq)
    (hmiss : ¬ (req.restaurantId = 0 ∨ req.tableId = 0 ∨
      req.customerName = "" ∨ req.customerEmail = "" ∨
      req.customerPhone = "" ∨ req.partySize = 0))
    (hemail : emailFormatOk req.customerEmail = true)
    (hps : ¬ (req.partySize < 1 ∨ req.partySize > 20)) :
    (req.bookingDate = today →
      (createBooking today st req).1 ≠ .pastDate ∧
      (createBooking today st req).1 ≠ .beyondHorizon) ∧
    (req.bookingDate = today - 1 →
      (createBooking today st req).1 = .pastDate) ∧
    (req.bookingDate = today + 90 →
      (createBooking today st req).1 ≠ .pastDate ∧
      (createBooking today st req).1 ≠ .beyondHorizon) ∧
    (req.bookingDate = today + 91 →
      (createBooking today st req).1 = .beyondHorizon) := by
  refine ⟨?_, ?_, ?_, ?_⟩
  · intro hd
    refine ⟨fun h => ?_, fun h => ?_⟩
    · have := createBooking_pastDate_lt today st req h; omega
    · have := createBooking_beyondHorizon_gt today st req h; omega
  · intro hd
    have hb : createBasicsErr today req = some .pastDate := by
      unfold createBasicsErr
      rw [if_neg hmiss, if_neg (by simp [hemail]), if_neg hps,
        if_pos (by omega)]
    unfold createBooking
    rw [hb]
  · intro hd
    refine ⟨fun h => ?_, fun h => ?_⟩
    · have := createBooking_pastDate_lt today st req h; omega
    · have := createBooking_beyondHorizon_gt today st req h; omega
  · intro hd
    have hb : createBasicsErr today req = some .beyondHorizon := by
      unfold createBasicsErr
      rw [if_neg hmiss, if_neg (by simp [hemail]), if_neg hps,
        if_neg (by omega), if_pos (by omega)]
    unfold createBooking
    rw [hb]

/-- Witness for C6 at concrete inputs around `today = 100`. -/
theorem C6_reference_day_boundaries_witness :
    (createBooking 100 exState (exReq 100 ⟨19, 0⟩ 2)).1 ≠ .pastDate ∧
    (createBooking 100 exState (exReq 99 ⟨19, 0⟩ 2)).1 = .pastDate ∧
    (createBooking 100 exState (exReq 190 ⟨19, 0⟩ 2)).1 ≠ .beyondHorizon ∧
    (createBooking 100 exState (exReq 191 ⟨19, 0⟩ 2)).1 = .beyondHorizon := by
  refine ⟨?_, ?_, ?_, ?_⟩
  · exact ((C6_reference_day_boundaries 100 exState (exReq 100 ⟨19, 0⟩ 2)
      (by decide) (by decide) (by decide)).1 (by decide)).1
  · exact (C6_reference_day_boundaries 100 exState (exReq 99 ⟨19, 0⟩ 2)
      (by decide) (by decide) (by decide)).2.1 (by decide)
  · exact ((C6_reference_day_boundaries 100 exState (exReq 190 ⟨19, 0⟩ 2)
      (by decide) (by decide) (by decide)).2.2.1 (by decide)).2
  · exact (C6_reference_day_boundaries 100 exState (exReq 191 ⟨19, 0⟩ 2)
      (by decide) (by decide) (by decide)).2.2.2 (by decide)

/-- C3 counterexample: a completed, future-dated booking is accepted by the
single-cancel operation, which changes its status to cancelled — so not
every status-changing operation on a terminal booking is rejected. -/
theorem C3_terminal_counterexample :
    exCompletedBooking.status = BStatus.completed ∧
    (cancelBooking 100 [exCompletedBooking] 1).1 =
      .ok { exCompletedBooking with status := BStatus.cancelled } ∧
    (cancelBooking 100 [exCompletedBooking] 1).2 =
      [{ exCompletedBooking with status := BStatus.cancelled }] := by
  decide

/-- C3 (amended): a cancelled booking rejects every status change through
every path — generic transition to a different status, single cancel, bulk
update to a different status, bulk cancel — and cancelling an
already-cancelled booking is rejected rather than re-applied; a completed
booking rejects a different target status through the generic transition
and the bulk update, while the cancel paths (see the counterexample) do
not screen it. -/
theorem C3_terminal_status_guards (today : Int) (st : List Booking)
    (bid : Nat) (s : BStatus) (b : Booking) (ids : List Nat) :
    (st.find? (fun x => x.id == bid) = some b →
      (b.status = .cancelled → s ≠ .cancelled →
        patchStatus today st bid s = (.cancelledTerminal, st)) ∧
      (b.status = .completed → s ≠ .completed →
        patchStatus today st bid s = (.completedTerminal, st)) ∧
      (b.status = .cancelled →
        cancelBooking today st bid = (.alreadyCancelled, st))) ∧
    (b ∈ st → ids.contains b.id = true →
      ((b.status = .cancelled ∧ s ≠ .cancelled) ∨
          (b.status = .completed ∧ s ≠ .completed) →
        (∀ u, (bulkUpdateStatus today st ids s).1 ≠ .ok u) ∧
          (bulkUpdateStatus today st ids s).2 = st) ∧
      (b.status = .cancelled →
        (∀ u, (bulkCancel today st ids).1 ≠ .ok u) ∧
          (bulkCancel today st ids).2 = st)) := by
  constructor
  · intro hfind
    refine ⟨fun hb hs => ?_, fun hb hs => ?_, fun hb => ?_⟩
    · simp [patchStatus, hfind, hb, hs]
    · simp [patchStatus, hfind, hb, hs]
    · simp [cancelBooking, hfind, hb]
  · intro hmem hid
    refine ⟨fun hbad => ?_, fun hb => ?_⟩
    · refine bulkUpdateStatus_blocked today st ids s b hmem hid ?_
      rcases hbad with ⟨hb, hs⟩ | ⟨hb, hs⟩ <;>
        simp [illegalFor, hb, hs]
    · exact bulkCancel_blocked today st ids b hmem hid hb

/-- Witness for C3 at concrete inputs. -/
theorem C3_terminal_status_guards_witness :
    patchStatus 100 [exCancelledBooking] 1 BStatus.confirmed =
      (.cancelledTerminal, [exCancelledBooking]) ∧
    patchStatus 100 [exCompletedBooking] 1 BStatus.confirmed =
      (.completedTerminal, [exCompletedBooking]) ∧
    cancelBooking 100 [exCancelledBooking] 1 =
      (.alreadyCancelled, [exCancelledBooking]) ∧
    (∀ u, (bulkCancel 100 [exCancelledBooking] [1]).1 ≠ .ok u) := by
  have h1 := C3_terminal_status_guards 100 [exCancelledBooking] 1
    BStatus.confirmed exCancelledBooking [1]
  have h2 := C3_terminal_status_guards 100 [exCompletedBooking] 1
    BStatus.confirmed exCompletedBooking [1]
  exact ⟨(h1.1 (by decide)).1 (by decide) (by decide),
    (h2.1 (by decide)).2.1 (by decide) (by decide),
    (h1.1 (by decide)).2.2 (by decide),
    ((h1.2 (by decide) (by decide)).2 (by decide)).1⟩

/-- C10: a no-show booking accepts the generic status transition to any of
the four statuses, subject only to the past-date rule when the target is
cancelled; no-show is not treated as terminal. -/
theorem C10_noShow_not_terminal (today : Int) (l : List Booking) (bid : Nat)
    (s : BStatus) (b : Booking)
    (hfind : l.find? (fun x => x.id == bid) = some b)
    (hb : b.status = .noShow) :
    (¬ (s = .cancelled ∧ b.bookingDate < today) →
      patchStatus today l bid s =
        (.ok { b with status := s },
         l.map (fun x => if x.id == bid then { x with status := s }
           else x))) ∧
    (s = .cancelled → b.bookingDate < today →
      patchStatus today l bid s = (.pastCancel, l)) := by
  constructor
  · intro hok
    simp [patchStatus, hfind, hb, hok]
  · intro hs hd
    simp [patchStatus, hfind, hb, hs, hd]

/-- Witness for C10 at concrete inputs. -/
theorem C10_noShow_not_terminal_witness :
    (patchStatus 100 [exNoShowBooking] 1 BStatus.confirmed).1 =
      .ok { exNoShowBooking with status := BStatus.confirmed } ∧
    (patchStatus 100 [exNoShowBooking] 1 BStatus.completed).1 =
      .ok { exNoShowBooking with status := BStatus.completed } ∧
    (patchStatus 100 [exNoShowBooking] 1 BStatus.cancelled).1 =
      .ok { exNoShowBooking with status := BStatus.cancelled } ∧
    (patchStatus 100 [exNoShowPast] 1 BStatus.cancelled).1 = .pastCancel := by
  refine ⟨?_, ?_, ?_, ?_⟩
  · rw [(C10_noShow_not_terminal 100 [exNoShowBooking] 1 BStatus.confirmed
      exNoShowBooking (by decide) (by decide)).1 (by decide)]
  · rw [(C10_noShow_not_terminal 100 [exNoShowBooking] 1 BStatus.completed
      exNoShowBooking (by decide) (by decide)).1 (by decide)]
  · rw [(C10_noShow_not_terminal 100 [exNoShowBooking] 1 BStatus.cancelled
      exNoShowBooking (by decide) (by decide)).1 (by decide)]
  · rw [(C10_noShow_not_terminal 100 [exNoShowPast] 1 BStatus.cancelled
      exNoShowPast (by decide) (by decide)).2 (by decide) (by decide)]

/-- C9: updating only the `specialRequests` field of an existing
non-cancelled booking succeeds and leaves its date, time, table and status
unchanged. -/
theorem C9_specialRequests_frame (today : Int) (st : DBState) (bid : Nat)
    (b : Booking) (sreq : String)
    (hfind : st.bookings.find? (fun x => x.id == bid) = some b)
    (hnc : b.status ≠ .cancelled) :
    (updateBooking today st bid
        { UpdateReq.empty with specialRequests := some sreq }).1 =
      .ok { b with
        specialRequests := if sreq = "" then none else some sreq } ∧
    (∀ nb, (updateBooking today st bid
        { UpdateReq.empty with specialRequests := some sreq }).1 = .ok nb →
      nb.bookingDate = b.bookingDate ∧ nb.bookingTime = b.bookingTime ∧
        nb.tableId = b.tableId ∧ nb.status = b.status) := by
  have hmain : (updateBooking today st bid
      { UpdateReq.empty with specialRequests := some sreq }).1 =
      .ok { b with
        specialRequests := if sreq = "" then none else some sreq } := by
    simp [updateBooking, hfind, hnc, UpdateReq.empty, strProvided,
      custUpdated, updateConflictHit, updatedBookingOf, updatePSErr,
      checkDateOf, checkTimeOf, checkTableIdOf, tableTruthy]
  refine ⟨hmain, fun nb h => ?_⟩
  rw [hmain] at h
  have hnb : nb = { b with
      specialRequests := if sreq = "" then none else some sreq } := by
    cases h; rfl
  subst hnb
  exact ⟨rfl, rfl, rfl, rfl⟩

/-- Witness for C9 at concrete inputs. -/
theorem C9_specialRequests_frame_witness :
    (updateBooking 100 exStateU 1
        { UpdateReq.empty with specialRequests := some "window seat" }).1 =
      .ok { exConfirmedBooking with specialRequests := some "window seat" } := by
  rw [(C9_specialRequests_frame 100 exStateU 1 exConfirmedBooking
    "window seat" (by decide) (by decide)).1]
  decide

/-- C4 counterexample: an update that changes only `partySize` (no
`tableId`) is applied without any capacity check, leaving a party of 10 on
a table of capacity 4. -/
theorem C4_capacity_counterexample :
    (updateBooking 100 exStateU 1
        { UpdateReq.empty with partySize := some 10 }).1 =
      .ok { exConfirmedBooking with partySize := 10 } ∧
    exConfirmedBooking.tableId = exTable.id ∧
    exStateU.restaurants = [exRestaurant] ∧
    exRestaurant.tables = [exTable] ∧
    (10 : Int) > exTable.capacity := by decide

/-- C4 (amended): every successful create yields a booking whose party size
fits the capacity of its referenced table, and every successful update that
supplies a `tableId` leaves the booking on that table with a fitting party
size; an update that changes `partySize` without supplying `tableId`
performs no capacity check (see the counterexample). -/
theorem C4_capacity_checks (today : Int) (st : DBState) (req : CreateReq)
    (b : Booking) (ureq : UpdateReq) (bid : Nat) (tid : Nat) (nb : Booking) :
    ((createBooking today st req).1 = .created b →
      ∃ r, st.restaurants.find? (fun x => x.id == req.restaurantId) = some r ∧
        ∃ tb, r.tables.find? (fun t => t.id == req.tableId) = some tb ∧
          b.tableId = req.tableId ∧ b.partySize ≤ tb.capacity) ∧
    (ureq.tableId = some tid →
      (updateBooking today st bid ureq).1 = .ok nb →
      ∃ eb, st.bookings.find? (fun x => x.id == bid) = some eb ∧
        ∃ r, st.restaurants.find?
            (fun x => x.id == eb.restaurantId) = some r ∧
          ∃ tb, r.tables.find? (fun t => t.id == tid) = some tb ∧
            nb.tableId = tid ∧ nb.partySize ≤ tb.capacity) := by
  constructor
  · intro h
    unfold createBooking at h
    split at h
    next e heq =>
      have h' : e = CreateResult.created b := h
      subst h'
      exact absurd heq (createBasicsErr_not_created today req b)
    next heq =>
      split at h
      next => simp at h
      next r heqr =>
        split at h
        next => simp at h
        next hF heqh =>
          split at h
          next => simp at h
          next hcl =>
            split at h
            next => simp at h
            next htw =>
              split at h
              next => simp at h
              next tb heqt =>
                split at h
                next => simp at h
                next hact =>
                  split at h
                  next => simp at h
                  next hcap =>
                    have hb := createWithConflicts_created st req b h
                    subst hb
                    refine ⟨r, heqr, tb, heqt, rfl, ?_⟩
                    show req.partySize ≤ tb.capacity
                    omega
  · intro htid h
    obtain ⟨eb, heqb, hnc, hps, htb, hcf, hnb⟩ :=
      updateBooking_ok_inv today st bid ureq nb h
    rw [htid] at htb
    obtain ⟨r, hro, tb, heqt, hact, hcap⟩ :=
      updateTableErr_none_inv _ _ _ _ htb
    refine ⟨eb, heqb, r, hro, tb, heqt, ?_, ?_⟩
    · rw [hnb]
      simp [updatedBookingOf, htid]
    · rw [hnb]
      rcases hpz : ureq.partySize with _ | p
      · rw [hpz] at hcap
        simp only [updatedBookingOf, hpz]
        simpa [finalPartySizeOf] using hcap
      · rw [hpz] at hps hcap
        simp only [updatePSErr] at hps
        split_ifs at hps with hrange
        have hp0 : p ≠ 0 := by omega
        simp only [updatedBookingOf, hpz]
        rw [show finalPartySizeOf eb (some p) = p from by
          simp [finalPartySizeOf, hp0]] at hcap
        exact hcap

/-- Witness for C4: the create side at a concrete accepted request. -/
theorem C4_capacity_checks_witness :
    ∃ r, exState.restaurants.find?
        (fun x => x.id == (exReq 100 ⟨19, 0⟩ 2).restaurantId) = some r ∧
      ∃ tb, r.tables.find?
          (fun t => t.id == (exReq 100 ⟨19, 0⟩ 2).tableId) = some tb ∧
        (newBookingOf exState (exReq 100 ⟨19, 0⟩ 2)).tableId =
          (exReq 100 ⟨19, 0⟩ 2).tableId ∧
        (newBookingOf exState (exReq 100 ⟨19, 0⟩ 2)).partySize ≤
          tb.capacity :=
  (C4_capacity_checks 100 exState (exReq 100 ⟨19, 0⟩ 2)
    (newBookingOf exState (exReq 100 ⟨19, 0⟩ 2)) UpdateReq.empty 0 0
    (newBookingOf exState (exReq 100 ⟨19, 0⟩ 2))).1 (by decide)

/-- C5 counterexample: a request that is both past-dated and oversized is
rejected for the party size, not the past date — the party-size check runs
before the date checks, contrary to the claimed order. -/
theorem C5_check_order_counterexample :
    (exReq 50 ⟨19, 0⟩ 25).bookingDate < 100 ∧
    (exReq 50 ⟨19, 0⟩ 25).partySize > 20 ∧
    (createBooking 100 exState (exReq 50 ⟨19, 0⟩ 25)).1 =
      .partySizeInvalid ∧
    (createBooking 100 exState (exReq 50 ⟨19, 0⟩ 25)).1 ≠ .pastDate := by
  decide

/-- C5 (amended): after the required-field and email checks, creation
evaluates its availability checks in the order party size, past date,
horizon, open day, time window, table active, capacity, short-circuiting at
the first failure, so an earlier failing check determines the rejection
even when later checks would also fail. -/
theorem C5_check_order (today : Int) (st : DBState) (req : CreateReq)
    (hmiss : ¬ (req.restaurantId = 0 ∨ req.tableId = 0 ∨
      req.customerName = "" ∨ req.customerEmail = "" ∨
      req.customerPhone = "" ∨ req.partySize = 0))
    (hemail : emailFormatOk req.customerEmail = true) :
    ((req.partySize < 1 ∨ req.partySize > 20) →
      (createBooking today st req).1 = .partySizeInvalid) ∧
    (¬ (req.partySize < 1 ∨ req.partySize > 20) →
      req.bookingDate < today →
      (createBooking today st req).1 = .pastDate) ∧
    (¬ (req.partySize < 1 ∨ req.partySize > 20) →
      ¬ req.bookingDate < today → req.bookingDate > today + 90 →
      (createBooking today st req).1 = .beyondHorizon) ∧
    (∀ r, ¬ (req.partySize < 1 ∨ req.partySize > 20) →
      ¬ req.bookingDate < today → ¬ req.bookingDate > today + 90 →
      st.restaurants.find? (fun x => x.id == req.restaurantId) = some r →
      (dayHoursFor r req.bookingDate = none ∨
        (∃ hF, dayHoursFor r req.bookingDate = some hF ∧
          hF.isClosed = true)) →
      (createBooking today st req).1 = .closedThisDay) ∧
    (∀ r hF, ¬ (req.partySize < 1 ∨ req.partySize > 20) →
      ¬ req.bookingDate < today → ¬ req.bookingDate > today + 90 →
      st.restaurants.find? (fun x => x.id == req.restaurantId) = some r →
      dayHoursFor r req.bookingDate = some hF → hF.isClosed = false →
      timeWindowViolated hF req.bookingTime →
      (createBooking today st req).1 = .outsideHours) ∧
    (∀ r hF tb, ¬ (req.partySize < 1 ∨ req.partySize > 20) →
      ¬ req.bookingDate < today → ¬ req.bookingDate > today + 90 →
      st.restaurants.find? (fun x => x.id == req.restaurantId) = some r →
      dayHoursFor r req.bookingDate = some hF → hF.isClosed = false →
      ¬ timeWindowViolated hF req.bookingTime →
      r.tables.find? (fun t => t.id == req.tableId) = some tb →
      tb.isActive = false →
      (createBooking today st req).1 = .tableInactive) ∧
    (∀ r hF tb, ¬ (req.partySize < 1 ∨ req.partySize > 20) →
      ¬ req.bookingDate < today → ¬ req.bookingDate > today + 90 →
      st.restaurants.find? (fun x => x.id == req.restaurantId) = some r →
      dayHoursFor r req.bookingDate = some hF → hF.isClosed = false →
      ¬ timeWindowViolated hF req.bookingTime →
      r.tables.find? (fun t => t.id == req.tableId) = some tb →
      tb.isActive = true → req.partySize > tb.capacity →
      (createBooking today st req).1 = .overCapacity) := by
  have hbas : ∀ (hps : ¬ (req.partySize < 1 ∨ req.partySize > 20))
      (hpa : ¬ req.bookingDate < today)
      (hho : ¬ req.bookingDate > today + 90),
      createBasicsErr today req = none := by
    intro hps hpa hho
    unfold createBasicsErr
    rw [if_neg hmiss, if_neg (by simp [hemail]), if_neg hps, if_neg hpa,
      if_neg hho]
  refine ⟨?_, ?_, ?_, ?_, ?_, ?_, ?_⟩
  · intro hps
    have hb : createBasicsErr today req = some .partySizeInvalid := by
      unfold createBasicsErr
      rw [if_neg hmiss, if_neg (by simp [hemail]), if_pos hps]
    unfold createBooking
    rw [hb]
  · intro hps hpa
    have hb : createBasicsErr today req = some .pastDate := by
      unfold createBasicsErr
      rw [if_neg hmiss, if_neg (by simp [hemail]), if_neg hps, if_pos hpa]
    unfold createBooking
    rw [hb]
  · intro hps hpa hho
    have hb : createBasicsErr today req = some .beyondHorizon := by
      unfold createBasicsErr
      rw [if_neg hmiss, if_neg (by simp [hemail]), if_neg hps, if_neg hpa,
        if_pos hho]
    unfold createBooking
    rw [hb]
  · intro r hps hpa hho hr hdis
    rcases hdis with hnone | ⟨hF, hsome, hcl⟩
    · simp [createBooking, hbas hps hpa hho, hr, hnone]
    · simp [createBooking, hbas hps hpa hho, hr, hsome, hcl]
  · intro r hF hps hpa hho hr hsome hcl htw
    simp [createBooking, hbas hps hpa hho, hr, hsome, hcl, htw]
  · intro r hF tb hps hpa hho hr hsome hcl htw ht hia
    simp [createBooking, hbas hps hpa hho, hr, hsome, hcl, htw, ht, hia]
  · intro r hF tb hps hpa hho hr hsome hcl htw ht hia hcap
    simp [createBooking, hbas hps hpa hho, hr, hsome, hcl, htw, ht, hia,
      hcap]

/-- Witness for C5 at concrete inputs: an oversized party is rejected for
size, and a well-sized past-dated request is rejected for the date. -/
theorem C5_check_order_witness :
    (createBooking 100 exState (exReq 50 ⟨19, 0⟩ 25)).1 =
      .partySizeInvalid ∧
    (createBooking 100 exState (exReq 99 ⟨19, 0⟩ 2)).1 = .pastDate := by
  have h1 := C5_check_order 100 exState (exReq 50 ⟨19, 0⟩ 25)
    (by decide) (by decide)
  have h2 := C5_check_order 100 exState (exReq 99 ⟨19, 0⟩ 2)
    (by decide) (by decide)
  exact ⟨h1.1 (by decide), h2.2.1 (by decide) (by decide)⟩

/-- C7 counterexample: with two confirmed bookings on one slot, an update
of the first booking onto that same effective slot finds the booking
itself first, so the other confirmed occupant is missed and no 409 is
returned. -/
theorem C7_update_conflict_counterexample :
    exOtherBooking ∈ exStateC7.bookings ∧
    exOtherBooking.id ≠ 1 ∧
    exOtherBooking.status = BStatus.confirmed ∧
    exOtherBooking.tableId =
      checkTableIdOf exConfirmedBooking
        { UpdateReq.empty with tableId := some 1 } ∧
    exOtherBooking.bookingDate =
      checkDateOf exConfirmedBooking
        { UpdateReq.empty with tableId := some 1 } ∧
    exOtherBooking.bookingTime =
      checkTimeOf exConfirmedBooking
        { UpdateReq.empty with tableId := some 1 } ∧
    (updateBooking 100 exStateC7 1
        { UpdateReq.empty with tableId := some 1 }).1 =
      .ok (updatedBookingOf exConfirmedBooking
        { UpdateReq.empty with tableId := some 1 }) ∧
    updateCode (updateBooking 100 exStateC7 1
        { UpdateReq.empty with tableId := some 1 }).1 ≠ 409 := by
  decide

/-- C7 (amended): when an update touches date, time or table and all field
validations pass, it returns 409 exactly when the *first* confirmed
booking on the effective slot has an id different from the booking being
updated — the booking never conflicts with itself; under slot-uniqueness
this coincides with the existence of some other confirmed booking on the
effective slot, which is the claim as stated. -/
theorem C7_effective_slot_conflict (today : Int) (st : DBState) (bid : Nat)
    (req : UpdateReq) (eb : Booking)
    (hfindb : st.bookings.find? (fun x => x.id == bid) = some eb)
    (hnc : eb.status ≠ .cancelled)
    (hcn : req.customerName = none) (hce : req.customerEmail = none)
    (hcp : req.customerPhone = none)
    (hdt : (if req.bookingDate.isSome ∨ req.bookingTime.isSome then
        updateDTErr today
          (st.restaurants.find? (fun r => r.id == eb.restaurantId))
          (checkDateOf eb req) (checkTimeOf eb req)
      else none) = none)
    (hps : updatePSErr req.partySize = none)
    (htb : (match req.tableId with
      | some tid => updateTableErr
          (st.restaurants.find? (fun r => r.id == eb.restaurantId))
          eb req.partySize tid
      | none => none) = none)
    (hguard : (req.bookingDate.isSome ∨ req.bookingTime.isSome) ∨
      tableTruthy req.tableId) :
    (updateCode (updateBooking today st bid req).1 = 409 ↔
      ∃ c, st.bookings.find? (fun b =>
          b.tableId == checkTableIdOf eb req &&
          b.bookingDate == checkDateOf eb req &&
          b.bookingTime == checkTimeOf eb req &&
          b.status == BStatus.confirmed) = some c ∧ c.id ≠ bid) ∧
    (slotUnique st.bookings →
      (updateCode (updateBooking today st bid req).1 = 409 ↔
        ∃ c, c ∈ st.bookings ∧ c.id ≠ bid ∧ c.status = .confirmed ∧
          c.tableId = checkTableIdOf eb req ∧
          c.bookingDate = checkDateOf eb req ∧
          c.bookingTime = checkTimeOf eb req)) := by
  have hiff := updateConflictHit_true_iff st bid eb req hguard
  have hred : ∀ hc : Bool, updateConflictHit st bid eb req = hc →
      (updateBooking today st bid req).1 =
        (if hc then UpdateResult.slotConflict
         else UpdateResult.ok (updatedBookingOf eb req)) := by
    intro hc hceq
    cases hc
    · simp [updateBooking, hfindb, hnc, hcn, hce, hcp, strProvided, hdt,
        hps, htb, hceq]
    · simp [updateBooking, hfindb, hnc, hcn, hce, hcp, strProvided, hdt,
        hps, htb, hceq]
  have hmain : updateCode (updateBooking today st bid req).1 = 409 ↔
      ∃ c, st.bookings.find? (fun b =>
          b.tableId == checkTableIdOf eb req &&
          b.bookingDate == checkDateOf eb req &&
          b.bookingTime == checkTimeOf eb req &&
          b.status == BStatus.confirmed) = some c ∧ c.id ≠ bid := by
    cases hch : updateConflictHit st bid eb req
    · rw [hred false hch]
      constructor
      · intro h
        exact absurd (show (200 : Nat) = 409 from h) (by decide)
      · intro hex
        have := hiff.mpr hex
        rw [hch] at this
        cases this
    · rw [hred true hch]
      exact ⟨fun _ => hiff.mp hch, fun _ => rfl⟩
  refine ⟨hmain, fun huniq => hmain.trans ?_⟩
  constructor
  · rintro ⟨c, hfc, hne⟩
    have hc1 := List.find?_some hfc
    have hc2 := List.mem_of_find?_eq_some hfc
    simp only [Bool.and_eq_true, beq_iff_eq] at hc1
    exact ⟨c, hc2, hne, hc1.2, hc1.1.1.1, hc1.1.1.2, hc1.1.2⟩
  · rintro ⟨c, hcm, hne, hst, htid2, hdate2, htime2⟩
    have hsome : (st.bookings.find? (fun b =>
        b.tableId == checkTableIdOf eb req &&
        b.bookingDate == checkDateOf eb req &&
        b.bookingTime == checkTimeOf eb req &&
        b.status == BStatus.confirmed)).isSome := by
      rw [List.find?_isSome]
      exact ⟨c, hcm, by simp [htid2, hdate2, htime2, hst]⟩
    obtain ⟨c', hfc'⟩ := Option.isSome_iff_exists.mp hsome
    have hc'1 := List.find?_some hfc'
    have hc'2 := List.mem_of_find?_eq_some hfc'
    simp only [Bool.and_eq_true, beq_iff_eq] at hc'1
    have hcc : c' = c := by
      refine huniq c' hc'2 c hcm hc'1.2 hst ?_ ?_ ?_
      · rw [hc'1.1.1.1, htid2]
      · rw [hc'1.1.1.2, hdate2]
      · rw [hc'1.1.2, htime2]
    exact ⟨c', hfc', by rw [hcc]; exact hne⟩

/-- Witness for C7: updating the second of two slot-sharing bookings onto
the occupied slot is rejected with 409. -/
theorem C7_effective_slot_conflict_witness :
    updateCode (updateBooking 100 exStateC7 2
        { UpdateReq.empty with tableId := some 1 }).1 = 409 := by
  have h := C7_effective_slot_conflict 100 exStateC7 2
    { UpdateReq.empty with tableId := some 1 } exOtherBooking
    (by decide) (by decide) (by decide) (by decide) (by decide) (by decide)
    (by decide) (by decide) (by decide)
  exact h.1.mpr ⟨exConfirmedBooking, by decide, by decide⟩

/-- C8 counterexample: a future-dated completed booking passes every bulk
cancel screen, so the batch is applied and the booking is cancelled,
although the claim requires the batch to be rejected for a booking that is
already completed with a different target status. -/
theorem C8_bulk_counterexample :
    exCompletedBooking.status = BStatus.completed ∧
    bulkCancel 100 [exCompletedBooking] [1] =
      (.ok [{ exCompletedBooking with status := BStatus.cancelled }],
       [{ exCompletedBooking with status := BStatus.cancelled }]) := by
  decide

/-- C8 (amended): both bulk operations are all-or-nothing with full
offender listings — unknown ids reject with every missing id, the bulk
status update rejects when any targeted booking is cancelled/completed
with a different target status (listing all of them), cancelling rejects
when any targeted booking is past-dated (listing all of them), and the
bulk cancel screens already-cancelled and past-dated bookings only, so a
completed booking passes it; every rejection leaves the stored list
unchanged, and on success every targeted booking receives the target
status while untargeted bookings are unchanged. -/
theorem C8_bulk_all_or_nothing (today : Int) (l : List Booking)
    (ids : List Nat) (s : BStatus)
    (hne : ids.isEmpty = false) (hlen : ids.length ≤ 50) :
    ((bulkTargets l ids).length ≠ ids.length →
      bulkUpdateStatus today l ids s = (.missing (bulkMissing l ids), l)) ∧
    ((bulkTargets l ids).length = ids.length →
      ((bulkTargets l ids).filter (illegalFor s)) ≠ [] →
      bulkUpdateStatus today l ids s =
        (.illegalChange (((bulkTargets l ids).filter (illegalFor s)).map
          (fun b => b.id)), l)) ∧
    ((bulkTargets l ids).length = ids.length →
      (bulkTargets l ids).filter (illegalFor s) = [] →
      s = .cancelled → bulkPast today l ids ≠ [] →
      bulkUpdateStatus today l ids s =
        (.pastIds ((bulkPast today l ids).map (fun b => b.id)), l)) ∧
    ((bulkTargets l ids).length = ids.length →
      (bulkTargets l ids).filter (illegalFor s) = [] →
      (s = .cancelled → bulkPast today l ids = []) →
      bulkUpdateStatus today l ids s =
        (.ok ((bulkApply l ids s).filter (fun b => ids.contains b.id)),
         bulkApply l ids s)) ∧
    ((bulkTargets l ids).length ≠ ids.length →
      bulkCancel today l ids = (.missing (bulkMissing l ids), l)) ∧
    ((bulkTargets l ids).length = ids.length →
      (bulkTargets l ids).filter
        (fun b => b.status == BStatus.cancelled) ≠ [] →
      bulkCancel today l ids =
        (.alreadyCancelledIds (((bulkTargets l ids).filter
          (fun b => b.status == BStatus.cancelled)).map (fun b => b.id)),
         l)) ∧
    ((bulkTargets l ids).length = ids.length →
      (bulkTargets l ids).filter
        (fun b => b.status == BStatus.cancelled) = [] →
      bulkPast today l ids ≠ [] →
      bulkCancel today l ids =
        (.pastIds ((bulkPast today l ids).map (fun b => b.id)), l)) ∧
    ((bulkTargets l ids).length = ids.length →
      (bulkTargets l ids).filter
        (fun b => b.status == BStatus.cancelled) = [] →
      bulkPast today l ids = [] →
      bulkCancel today l ids =
        (.ok ((bulkApply l ids BStatus.cancelled).filter
          (fun b => ids.contains b.id)),
         bulkApply l ids BStatus.cancelled)) ∧
    (∀ b, b ∈ l → ids.contains b.id = true →
      { b with status := s } ∈ bulkApply l ids s) ∧
    (∀ b, b ∈ l → ids.contains b.id = false → b ∈ bulkApply l ids s) := by
  have h1 : ¬ ids.isEmpty = true := by simp [hne]
  have h2 : ¬ ids.length > 50 := by omega
  refine ⟨?_, ?_, ?_, ?_, ?_, ?_, ?_, ?_, ?_, ?_⟩
  · intro hmiss
    unfold bulkUpdateStatus
    rw [if_neg h1, if_neg h2, if_pos hmiss]
  · intro hlen2 hfil
    unfold bulkUpdateStatus
    rw [if_neg h1, if_neg h2, if_neg (by simp [hlen2]),
      if_pos (by simpa [List.isEmpty_iff] using hfil)]
  · intro hlen2 hfil hs hp
    unfold bulkUpdateStatus
    rw [if_neg h1, if_neg h2, if_neg (by simp [hlen2]),
      if_neg (by simp [List.isEmpty_iff, hfil]),
      if_pos ⟨hs, by simpa [List.isEmpty_iff] using hp⟩]
  · intro hlen2 hfil hp
    unfold bulkUpdateStatus
    rw [if_neg h1, if_neg h2, if_neg (by simp [hlen2]),
      if_neg (by simp [List.isEmpty_iff, hfil]),
      if_neg (by rintro ⟨hs, hpne⟩; exact hpne (by simp [List.isEmpty_iff, hp hs]))]
  · intro hmiss
    unfold bulkCancel
    rw [if_neg h1, if_neg h2, if_pos hmiss]
  · intro hlen2 hfil
    unfold bulkCancel
    rw [if_neg h1, if_neg h2, if_neg (by simp [hlen2]),
      if_pos (by simpa [List.isEmpty_iff] using hfil)]
  · intro hlen2 hfil hp
    unfold bulkCancel
    rw [if_neg h1, if_neg h2, if_neg (by simp [hlen2]),
      if_neg (by simp [List.isEmpty_iff, hfil]),
      if_pos (by simpa [List.isEmpty_iff] using hp)]
  · intro hlen2 hfil hp
    unfold bulkCancel
    rw [if_neg h1, if_neg h2, if_neg (by simp [hlen2]),
      if_neg (by simp [List.isEmpty_iff, hfil]),
      if_neg (by simp [List.isEmpty_iff, hp])]
  · intro b hb hid
    unfold bulkApply
    exact List.mem_map.mpr ⟨b, hb, by rw [hid]; simp⟩
  · intro b hb hid
    unfold bulkApply
    exact List.mem_map.mpr ⟨b, hb, by rw [hid]; simp⟩

/-- Witness for C8 at concrete inputs: a clean bulk update succeeds, a
batch with an unknown id is rejected listing it, and a batch containing an
already-cancelled booking is rejected by bulk cancel. -/
theorem C8_bulk_all_or_nothing_witness :
    bulkUpdateStatus 100 [exConfirmedBooking] [1] BStatus.completed =
      (.ok [{ exConfirmedBooking with status := BStatus.completed }],
       [{ exConfirmedBooking with status := BStatus.completed }]) ∧
    bulkCancel 100 [exConfirmedBooking] [1, 7] = (.missing [7],
      [exConfirmedBooking]) ∧
    bulkCancel 100 [exCancelledBooking] [1] =
      (.alreadyCancelledIds [1], [exCancelledBooking]) := by
  have h1 := C8_bulk_all_or_nothing 100 [exConfirmedBooking] [1]
    BStatus.completed (by decide) (by decide)
  have h2 := C8_bulk_all_or_nothing 100 [exConfirmedBooking] [1, 7]
    BStatus.cancelled (by decide) (by decide)
  have h3 := C8_bulk_all_or_nothing 100 [exCancelledBooking] [1]
    BStatus.cancelled (by decide) (by decide)
  refine ⟨?_, ?_, ?_⟩
  · rw [h1.2.2.2.1 (by decide) (by decide) (by decide)]
    decide
  · rw [h2.2.2.2.2.1 (by decide)]
    decide
  · rw [h3.2.2.2.2.2.1 (by decide) (by decide)]
    decide

/-- C1: once every availability check passes, creation returns 409 exactly
when a confirmed booking already holds the (table, date, time) slot or a
confirmed booking by the same customer at the same restaurant exists on
the date; with neither conflict it inserts and returns the new confirmed
booking with 201. -/
theorem C1_create_conflicts (today : Int) (st : DBState) (req : CreateReq)
    (hmiss : ¬ (req.restaurantId = 0 ∨ req.tableId = 0 ∨
      req.customerName = "" ∨ req.customerEmail = "" ∨
      req.customerPhone = "" ∨ req.partySize = 0))
    (hemail : emailFormatOk req.customerEmail = true)
    (hps : ¬ (req.partySize < 1 ∨ req.partySize > 20))
    (hpa : ¬ req.bookingDate < today)
    (hho : ¬ req.bookingDate > today + 90)
    (r : Restaurant)
    (hr : st.restaurants.find? (fun x => x.id == req.restaurantId) = some r)
    (hF : OpeningHour) (hh : dayHoursFor r req.bookingDate = some hF)
    (hcl : hF.isClosed = false)
    (htw : ¬ timeWindowViolated hF req.bookingTime)
    (tb : RTable)
    (ht : r.tables.find? (fun t => t.id == req.tableId) = some tb)
    (hact : tb.isActive = true) (hcap : ¬ req.partySize > tb.capacity) :
    (createCode (createBooking today st req).1 = 409 ↔
      ((∃ b, b ∈ st.bookings ∧ b.status = .confirmed ∧
          b.customerId = resolveCustomerId st req ∧
          b.restaurantId = req.restaurantId ∧
          b.bookingDate = req.bookingDate) ∨
       (∃ b, b ∈ st.bookings ∧ b.status = .confirmed ∧
          b.tableId = req.tableId ∧ b.bookingDate = req.bookingDate ∧
          b.bookingTime = req.bookingTime))) ∧
    ((¬ ∃ b, b ∈ st.bookings ∧ b.status = .confirmed ∧
        b.customerId = resolveCustomerId st req ∧
        b.restaurantId = req.restaurantId ∧
        b.bookingDate = req.bookingDate) →
     (¬ ∃ b, b ∈ st.bookings ∧ b.status = .confirmed ∧
        b.tableId = req.tableId ∧ b.bookingDate = req.bookingDate ∧
        b.bookingTime = req.bookingTime) →
      (createBooking today st req).1 = .created (newBookingOf st req) ∧
      (newBookingOf st req).status = .confirmed ∧
      createCode (createBooking today st req).1 = 201 ∧
      (createBooking today st req).2.bookings =
        st.bookings ++ [newBookingOf st req]) := by
  have hbas : createBasicsErr today req = none := by
    unfold createBasicsErr
    rw [if_neg hmiss, if_neg (by simp [hemail]), if_neg hps, if_neg hpa,
      if_neg hho]
  have hred : createBooking today st req = createWithConflicts st req := by
    simp [createBooking, hbas, hr, hh, hcl, htw, ht, hact, hcap]
  have hub : (upsertCustomer st req).bookings = st.bookings :=
    upsertCustomer_bookings st req
  rcases hcd : customerDayTaken st.bookings (resolveCustomerId st req)
      req.restaurantId req.bookingDate with _ | c
  · rcases hslot : slotTaken st.bookings req.tableId req.bookingDate
        req.bookingTime with _ | c
    · -- no conflicts: created
      have hncd : ¬ ∃ b, b ∈ st.bookings ∧ b.status = .confirmed ∧
          b.customerId = resolveCustomerId st req ∧
          b.restaurantId = req.restaurantId ∧
          b.bookingDate = req.bookingDate := by
        intro hE
        have := (customerDayTaken_isSome_iff st.bookings
          (resolveCustomerId st req) req.restaurantId req.bookingDate).mpr hE
        rw [hcd] at this
        cases this
      have hnslot : ¬ ∃ b, b ∈ st.bookings ∧ b.status = .confirmed ∧
          b.tableId = req.tableId ∧ b.bookingDate = req.bookingDate ∧
          b.bookingTime = req.bookingTime := by
        intro hE
        have := (slotTaken_isSome_iff st.bookings req.tableId
          req.bookingDate req.bookingTime).mpr hE
        rw [hslot] at this
        cases this
      have hres : (createBooking today st req).1 =
          .created (newBookingOf st req) := by
        rw [hred]
        unfold createWithConflicts
        rw [hub, hcd, hslot]
      have hbk : (createBooking today st req).2.bookings =
          st.bookings ++ [newBookingOf st req] := by
        rw [hred]
        unfold createWithConflicts
        rw [hub, hcd, hslot]
      constructor
      · rw [hres]
        constructor
        · intro h
          exact absurd (show (201 : Nat) = 409 from h) (by decide)
        · intro hor
          rcases hor with hE | hE
          · exact absurd hE hncd
          · exact absurd hE hnslot
      · intro _ _
        exact ⟨hres, rfl, by rw [hres]; rfl, hbk⟩
    · -- slot conflict
      have hres : (createBooking today st req).1 = .slotConflict := by
        rw [hred]
        unfold createWithConflicts
        rw [hub, hcd, hslot]
      have hE : ∃ b, b ∈ st.bookings ∧ b.status = .confirmed ∧
          b.tableId = req.tableId ∧ b.bookingDate = req.bookingDate ∧
          b.bookingTime = req.bookingTime :=
        (slotTaken_isSome_iff st.bookings req.tableId req.bookingDate
          req.bookingTime).mp (by rw [hslot]; rfl)
      constructor
      · rw [hres]
        exact ⟨fun _ => Or.inr hE, fun _ => rfl⟩
      · intro _ hnslot
        exact absurd hE hnslot
  · -- customer-day conflict
    have hres : (createBooking today st req).1 = .customerDayConflict := by
      rw [hred]
      unfold createWithConflicts
      rw [hub, hcd]
    have hE : ∃ b, b ∈ st.bookings ∧ b.status = .confirmed ∧
        b.customerId = resolveCustomerId st req ∧
        b.restaurantId = req.restaurantId ∧
        b.bookingDate = req.bookingDate :=
      (customerDayTaken_isSome_iff st.bookings (resolveCustomerId st req)
        req.restaurantId req.bookingDate).mp (by rw [hcd]; rfl)
    constructor
    · rw [hres]
      exact ⟨fun _ => Or.inl hE, fun _ => rfl⟩
    · intro hncd _
      exact absurd hE hncd

/-- Witness for C1: the concrete accepted request on an empty booking set
is created with 201. -/
theorem C1_create_conflicts_witness :
    (createBooking 100 exState (exReq 100 ⟨19, 0⟩ 2)).1 =
      .created (newBookingOf exState (exReq 100 ⟨19, 0⟩ 2)) ∧
    createCode (createBooking 100 exState (exReq 100 ⟨19, 0⟩ 2)).1 = 201 := by
  have h := C1_create_conflicts 100 exState (exReq 100 ⟨19, 0⟩ 2)
    (by decide) (by decide) (by decide) (by decide) (by decide)
    exRestaurant (by decide) (mkHour 2) (by decide) (by decide) (by decide)
    exTable (by decide) (by decide) (by decide)
  have h2 := h.2
    (by rintro ⟨b, hb, -⟩; exact absurd hb (List.not_mem_nil b))
    (by rintro ⟨b, hb, -⟩; exact absurd hb (List.not_mem_nil b))
  exact ⟨h2.1, h2.2.2.1⟩

end FreeTable
